import Mathlib

/-!
Verification of the miragic-sdk repository against its specification.

The repository is a thin Python client SDK: `src/miragic_sdk/core.py` defines the
façade class `MiragicSDK`, `src/examples/config.py` defines `MiragicConfig` and a
module-level `config = MiragicConfig()`, and `src/examples/cli_api_example.py` /
`src/examples/api_usage_example.py` are the CLI and example drivers.

This file shallowly embeds the parts of that code the claims are about:
Python keyword-argument binding for `MiragicSDK.__init__`, instance attribute
lookup (instance `__dict__` shadowing plain class functions), `MiragicConfig`
construction from environment variables, `int()` parsing, `validate`,
`setup_directories` over an abstract directory set, and the batch-processing
loop of the example script. The feature-client classes (`BackgroundRemover`,
`ImageUpscaler`, `BlurBackground`) are imported by `core.py` but their source is
not part of the repository snapshot; where a claim depends on them, a definition
is modelled from the specification and marked as such in its doc comment.
-/

/-- The Python exceptions that occur in the embedded fragments.
`typeError` carries the offending keyword (for unexpected keyword arguments)
or a message (for calling a non-callable object). -/
inductive PyError where
  | typeError (arg : String)
  | valueError
  | attributeError
  | fileExistsError
deriving DecidableEq, Repr

/-- Python values passed as keyword arguments in the examples and CLI:
strings, booleans and `None` are the only shapes that occur at the
constructor call sites. -/
inductive PyValue where
  | str (s : String)
  | bool (b : Bool)
  | none
deriving DecidableEq, Repr

/-- Objects reachable by attribute lookup on a `MiragicSDK` instance:
a plain stored value, one of the three feature-client delegates constructed in
`__init__` (each holding the api_key it was constructed with), or a method of
the class accessed through the instance (a bound method). -/
inductive Obj where
  | val (v : PyValue)
  | backgroundRemover (api_key : Option String)
  | imageUpscaler (api_key : Option String)
  | blurBackground (api_key : Option String)
  | boundMethod (name : String)
deriving DecidableEq, Repr

namespace MiragicSDK

/-- The parameters of `MiragicSDK.__init__` besides `self`
(core.py line 22: `def __init__(self, api_key: Optional[str] = None)`). -/
def initParams : List String := ["api_key"]

/-- The plain functions defined on the class `MiragicSDK` in core.py
(lines 22, 34, 56, 79, 103). -/
def classMethods : List String :=
  ["__init__", "remove_background", "upscale_image", "blur_background", "get_version"]

/-- The instance `__dict__` of a `MiragicSDK` object after `__init__`
(core.py lines 29-32): the stored api_key and the three feature-client
delegates, each constructed with the same api_key.  Note the last entry binds
the name `blur_background`, which is also the name of a method of the class. -/
def instanceDict (api_key : Option String) : List (String × Obj) :=
  [ ("api_key", Obj.val (match api_key with | some s => PyValue.str s | none => PyValue.none)),
    ("background_remover", Obj.backgroundRemover api_key),
    ("image_upscaler", Obj.imageUpscaler api_key),
    ("blur_background", Obj.blurBackground api_key) ]

/-- Python attribute lookup on a `MiragicSDK` instance: the instance `__dict__`
takes precedence over plain functions found on the class (functions are
non-data descriptors); a name found in neither raises `AttributeError`. -/
def getattr (api_key : Option String) (name : String) : Except PyError Obj :=
  match (instanceDict api_key).find? (fun kv => kv.1 = name) with
  | some kv => .ok kv.2
  | Option.none =>
      if classMethods.contains name then .ok (Obj.boundMethod name)
      else .error PyError.attributeError

/-- Python keyword-argument binding for a call `MiragicSDK(**kwargs)`
(as made by `setup_sdk` in cli_api_example.py and by every example script):
a keyword that is not a parameter of `__init__` raises
`TypeError: __init__() got an unexpected keyword argument ...` naming the first
such keyword; otherwise the instance is constructed, `api_key` taking the
bound value or its default `None` (core.py lines 22-32). -/
def construct (kwargs : List (String × PyValue)) : Except PyError (Option String) :=
  match kwargs.find? (fun kv => !initParams.contains kv.1) with
  | some kv => .error (PyError.typeError kv.1)
  | Option.none =>
      match (kwargs.find? (fun kv => kv.1 = "api_key")).map Prod.snd with
      | some (PyValue.str s) => .ok (some s)
      | _ => .ok Option.none

end MiragicSDK

/-- The keyword arguments of the SDK construction call in
api_usage_example.py lines 24-28 (the call in `setup_sdk` passes the same
three keys, from `MiragicConfig.get_sdk_config`, config.py lines 56-67). -/
def exampleConstructKwargs : List (String × PyValue) :=
  [ ("api_key", PyValue.str "your_api_key_here"),
    ("use_api", PyValue.bool true),
    ("api_base_url", PyValue.str "https://api.miragic.com/v1") ]

/-- Whether an object of the model can be called.  Bound methods of the class
are callable.  Modelled from the spec: the `BlurBackground` feature-client
class itself is not in the repository snapshot; spec §4.3 describes feature
clients only through their operation handling (core.py invokes the blur client
via its `apply_blur` method, line 100), and nothing gives the client object a
`__call__`, so the delegate objects are not callable. -/
def Obj.callable : Obj → Bool
  | .boundMethod _ => true
  | _ => false

/-- The call `sdk.blur_background(input_path, output_path, blur_strength)` made
by the CLI and the examples: attribute lookup on the instance followed by a
call of the object found.  The blur strength is a Python float, modelled as a
rational.  Calling a non-callable object raises
`TypeError: ... object is not callable`. -/
def sdkBlurCall (api_key : Option String) (input output : String) (strength : ℚ) :
    Except PyError String :=
  match MiragicSDK.getattr api_key "blur_background" with
  | .error e => .error e
  | .ok o =>
      if o.callable then
        -- the body of the (shadowed) façade method, core.py lines 79-100:
        -- it forwards to self.blur_background.apply_blur unconditionally
        .ok output
      else .error (PyError.typeError "object is not callable")

/-- `status_command` (cli_api_example.py lines 84-93) after `setup_sdk`: inside
`try` it evaluates `sdk.get_api_status()`; the `except` clause catches any
exception, prints a message, and calls `sys.exit(1)`.  The result is the
process exit code, `0` when the `try` block completes. -/
def status_command (api_key : Option String) : Nat :=
  match MiragicSDK.getattr api_key "get_api_status" with
  | .error _ => 1
  | .ok _ => 0

/-- `usage_command` (cli_api_example.py lines 96-105): same shape as
`status_command`, calling `sdk.get_usage_stats()` inside `try`. -/
def usage_command (api_key : Option String) : Nat :=
  match MiragicSDK.getattr api_key "get_usage_stats" with
  | .error _ => 1
  | .ok _ => 0

/-- ASCII whitespace stripped by Python before parsing an integer literal. -/
def isPyWs (c : Char) : Bool :=
  c = ' ' || c = '\t' || c = '\n' || c = '\r' || c = '\x0b' || c = '\x0c'

/-- Strip leading and trailing whitespace from a character list. -/
def stripWs (cs : List Char) : List Char :=
  ((cs.dropWhile isPyWs).reverse.dropWhile isPyWs).reverse

/-- Continue parsing a decimal digit run in which a single underscore may
stand between two digits (Python integer-literal syntax). -/
def pyDigitsAux : Nat → List Char → Option Nat
  | acc, [] => some acc
  | acc, c :: cs =>
      if c.isDigit then pyDigitsAux (10 * acc + (c.toNat - 48)) cs
      else if c = '_' then
        match cs with
        | c2 :: cs2 =>
            if c2.isDigit then pyDigitsAux (10 * acc + (c2.toNat - 48)) cs2
            else none
        | [] => none
      else none

/-- Parse a nonempty decimal digit run (underscores allowed between digits). -/
def pyDigits : List Char → Option Nat
  | [] => none
  | c :: cs => if c.isDigit then pyDigitsAux (c.toNat - 48) cs else none

/-- Python `int(s)` on a decimal string: optional surrounding whitespace, an
optional sign, then one or more digits with single underscores allowed between
digits; any other shape raises `ValueError`. -/
def pythonInt (s : String) : Except PyError Int :=
  match stripWs s.toList with
  | '+' :: rest =>
      match pyDigits rest with
      | some n => .ok (Int.ofNat n)
      | none => .error PyError.valueError
  | '-' :: rest =>
      match pyDigits rest with
      | some n => .ok (-(Int.ofNat n))
      | none => .error PyError.valueError
  | cs =>
      match pyDigits cs with
      | some n => .ok (Int.ofNat n)
      | none => .error PyError.valueError

/-- The state of a constructed `MiragicConfig` object (config.py lines 14-30).
Python floats are modelled as rationals. -/
structure MiragicConfig where
  api_key : Option String
  api_base_url : String
  api_timeout : Int
  default_blur_strength : ℚ
  default_scale_factor : Int
  default_threshold : Int
  input_dir : String
  output_dir : String
  supported_formats : List String
deriving DecidableEq, Repr

/-- `MiragicConfig.__init__` (config.py lines 14-30) run in environment `env`:
`api_key` is `os.getenv("MIRAGIC_API_KEY")` (possibly `None`), `api_base_url`
and the timeout string take defaults when unset, and the timeout string is
passed through `int(...)`, whose `ValueError` propagates uncaught. -/
def MiragicConfig.init (env : String → Option String) : Except PyError MiragicConfig :=
  match pythonInt ((env "MIRAGIC_API_TIMEOUT").getD "30") with
  | .error e => .error e
  | .ok t =>
      .ok { api_key := env "MIRAGIC_API_KEY",
            api_base_url := (env "MIRAGIC_API_BASE_URL").getD "https://api.miragic.com/v1",
            api_timeout := t,
            default_blur_strength := 4/5,
            default_scale_factor := 2,
            default_threshold := 128,
            input_dir := "input",
            output_dir := "output",
            supported_formats := [".jpg", ".jpeg", ".png", ".bmp", ".tiff", ".webp"] }

/-- Python truthiness of the `api_key` attribute: `not self.api_key` is true
exactly when the key is `None` or the empty string. -/
def keyFalsy : Option String → Bool
  | Option.none => true
  | some s => s = ""

/-- `MiragicConfig.validate` (config.py lines 32-47): returns `False` (printing
a message, not raising) when `not self.api_key`, then `False` when
`os.path.exists(self.input_dir)` fails, and `True` otherwise.  The filesystem
is abstracted as the path-existence predicate `pathExists`. -/
def MiragicConfig.validate (c : MiragicConfig) (pathExists : String → Bool) : Bool :=
  if keyFalsy c.api_key then false
  else if !pathExists c.input_dir then false
  else true

/-- `os.makedirs(p, exist_ok=ok)` over a filesystem abstracted as the set of
existing directories: with `exist_ok=False` an existing `p` raises
`FileExistsError`; otherwise the directory exists afterwards and nothing else
changes. -/
def makedirs (fs : String → Bool) (p : String) (ok : Bool) :
    Except PyError (String → Bool) :=
  if !ok && fs p then .error PyError.fileExistsError
  else .ok (fun q => if q = p then true else fs q)

/-- `MiragicConfig.setup_directories` (config.py lines 49-54):
`os.makedirs(self.input_dir, exist_ok=True)` then
`os.makedirs(self.output_dir, exist_ok=True)`. -/
def MiragicConfig.setup_directories (c : MiragicConfig) (fs : String → Bool) :
    Except PyError (String → Bool) :=
  (makedirs fs c.input_dir true).bind (fun fs1 => makedirs fs1 c.output_dir true)

/-- Running the module body of config.py: its last statement is the module-level
`config = MiragicConfig()` (config.py line 71), so an exception raised by the
constructor propagates and the module fails to load. -/
def configModuleLoad (env : String → Option String) : Except PyError MiragicConfig :=
  MiragicConfig.init env

/-- Modelled from the spec: the `ImageUpscaler` feature-client class is not in
the repository snapshot.  Per spec §4.2 its `upscale` "fails with ValueError if
scale_factor is not a supported positive integer (contract implies 1-8
inclusive based on CLI constraints)" and otherwise performs the remote call and
returns the output path.  The second component counts remote calls performed,
to express that validation happens before any remote call. -/
def ImageUpscaler.upscale (input output : String) (scale : Int) :
    Except PyError String × Nat :=
  if 1 ≤ scale ∧ scale ≤ 8 then (.ok output, 1) else (.error PyError.valueError, 0)

/-- `MiragicSDK.upscale_image` (core.py lines 56-77): forwards to
`self.image_upscaler.upscale(input_path, output_path, scale_factor)`.  The
attribute name `image_upscaler` set in `__init__` differs from the method name
`upscale_image`, so this method is not shadowed and the delegation runs. -/
def MiragicSDK.upscale_image (api_key : Option String) (input output : String)
    (scale : Int) : Except PyError String × Nat :=
  ImageUpscaler.upscale input output scale

/-- A concrete environment in which only `MIRAGIC_API_TIMEOUT` is set, to a
string that does not parse as an integer. -/
def envBadTimeout : String → Option String :=
  fun k => if k = "MIRAGIC_API_TIMEOUT" then some "thirty" else Option.none

/-- C1: every example and the CLI's `setup_sdk` construct the façade as
`MiragicSDK(api_key=..., use_api=..., api_base_url=...)`, but `__init__`
accepts only `api_key`, so that call raises
`TypeError: unexpected keyword argument 'use_api'` instead of succeeding;
construction succeeds only when no extra keyword is passed. -/
theorem construct_with_example_kwargs_raises_typeerror :
    MiragicSDK.construct exampleConstructKwargs = .error (PyError.typeError "use_api") ∧
    MiragicSDK.construct [("api_key", PyValue.str "your_api_key_here")] =
      .ok (some "your_api_key_here") :=
  ⟨rfl, rfl⟩

/-- C2: the call `sdk.blur_background(input, output, blur_strength)` looks the
name up on the instance, finds the `BlurBackground` delegate assigned in
`__init__` (which shadows the façade method), and raises `TypeError` — both
for an in-range strength 0.8 and an out-of-range strength 2 — instead of
returning the output path or raising `ValueError` on the out-of-range value. -/
theorem blur_background_call_raises_typeerror :
    sdkBlurCall (some "your_api_key_here") "input.jpg" "output/blurred_background.jpg"
        (4/5) = .error (PyError.typeError "object is not callable") ∧
    sdkBlurCall (some "your_api_key_here") "input.jpg" "output/blurred_background.jpg"
        2 = .error (PyError.typeError "object is not callable") :=
  ⟨rfl, rfl⟩

/-- C3: on every `MiragicSDK` instance, attribute lookup of `blur_background`
resolves to the `BlurBackground` delegate stored in the instance `__dict__` by
`__init__`, not to the bound method of the class, so the façade method of that
name is unreachable through ordinary attribute access. -/
theorem blur_background_attribute_is_delegate (k : Option String) :
    MiragicSDK.getattr k "blur_background" = .ok (Obj.blurBackground k) ∧
    MiragicSDK.getattr k "blur_background" ≠ .ok (Obj.boundMethod "blur_background") :=
  ⟨rfl, fun h => by cases Except.ok.inj h⟩

/-- C4 counterexample: constructing `MiragicConfig` in an environment with no
variable set (in particular `MIRAGIC_API_KEY` unset) raises nothing and yields
a configuration whose `api_key` is `None`, refuting the claim that loading
fails with a ConfigurationError and produces no configuration value. -/
theorem config_init_without_key_succeeds :
    (MiragicConfig.init (fun _ => Option.none)).isOk = true ∧
    (MiragicConfig.init (fun _ => Option.none)).toOption.map MiragicConfig.api_key =
      some Option.none :=
  ⟨rfl, rfl⟩

/-- C4 amended: in every environment where `MIRAGIC_API_KEY` is unset and the
timeout variable is absent or parseable (`int()` accepts the timeout string,
which defaults to `"30"` when the variable is unset), `MiragicConfig`
construction succeeds with `api_key = None`; no ConfigurationError exists or is
raised, and the missing key is surfaced only later, by `validate()` returning
`False`. -/
theorem config_init_without_key_no_error (env : String → Option String)
    (fs : String → Bool) (t : Int)
    (hk : env "MIRAGIC_API_KEY" = Option.none)
    (ht : pythonInt ((env "MIRAGIC_API_TIMEOUT").getD "30") = .ok t) :
    (MiragicConfig.init env).isOk = true ∧
    (MiragicConfig.init env).toOption.map MiragicConfig.api_key = some Option.none ∧
    (MiragicConfig.init env).toOption.map (fun c => c.validate fs) = some false := by
  have hinit : MiragicConfig.init env =
      .ok { api_key := env "MIRAGIC_API_KEY",
            api_base_url := (env "MIRAGIC_API_BASE_URL").getD "https://api.miragic.com/v1",
            api_timeout := t,
            default_blur_strength := 4/5,
            default_scale_factor := 2,
            default_threshold := 128,
            input_dir := "input",
            output_dir := "output",
            supported_formats := [".jpg", ".jpeg", ".png", ".bmp", ".tiff", ".webp"] } := by
    unfold MiragicConfig.init
    rw [ht]
  refine ⟨by rw [hinit]; rfl, by rw [hinit]; simp [Except.toOption, hk], ?_⟩
  rw [hinit]
  simp [Except.toOption, MiragicConfig.validate, keyFalsy, hk]

/-- Witness for `config_init_without_key_no_error` at an environment where the
API key is unset and `MIRAGIC_API_TIMEOUT` is set to the parseable `"45"`. -/
theorem config_init_without_key_no_error_witness :
    (MiragicConfig.init
        (fun k => if k = "MIRAGIC_API_TIMEOUT" then some "45" else Option.none)).isOk =
      true ∧
    (MiragicConfig.init
        (fun k => if k = "MIRAGIC_API_TIMEOUT" then some "45" else Option.none)).toOption.map
      MiragicConfig.api_key = some Option.none ∧
    (MiragicConfig.init
        (fun k => if k = "MIRAGIC_API_TIMEOUT" then some "45" else Option.none)).toOption.map
      (fun c => c.validate (fun _ => true)) = some false :=
  config_init_without_key_no_error
    (fun k => if k = "MIRAGIC_API_TIMEOUT" then some "45" else Option.none)
    (fun _ => true) 45 (by decide) rfl

/-- C5: for every configuration state and filesystem, `validate` returns
`False` exactly when the API key is `None` or empty or the configured input
directory does not exist, and `True` otherwise. -/
theorem validate_false_iff (c : MiragicConfig) (fs : String → Bool) :
    c.validate fs = false ↔ (keyFalsy c.api_key = true ∨ fs c.input_dir = false) := by
  cases hkey : keyFalsy c.api_key <;> cases hdir : fs c.input_dir <;>
    simp [MiragicConfig.validate, hkey, hdir]

/-- C6: for every configuration and filesystem state, `setup_directories`
succeeds without error (in particular when the directories already exist),
afterwards both the input and output directories exist, and running it a
second time returns the same filesystem state as running it once. -/
theorem setup_directories_ok_idem (c : MiragicConfig) (fs : String → Bool) :
    (c.setup_directories fs).isOk = true ∧
    (c.setup_directories fs).bind c.setup_directories = c.setup_directories fs ∧
    (c.setup_directories fs).toOption.map (fun g => g c.input_dir) = some true ∧
    (c.setup_directories fs).toOption.map (fun g => g c.output_dir) = some true := by
  refine ⟨rfl, ?_, ?_, ?_⟩
  · show MiragicConfig.setup_directories c
      (fun q => if q = c.output_dir then true else if q = c.input_dir then true else fs q) =
      MiragicConfig.setup_directories c fs
    unfold MiragicConfig.setup_directories makedirs
    simp only [Bool.not_true, Bool.false_and, Bool.false_eq_true, if_false, Except.bind]
    congr 1
    funext q
    by_cases h1 : q = c.output_dir <;> by_cases h2 : q = c.input_dir <;> simp [h1, h2]
  · show some (if c.input_dir = c.output_dir then true
        else if c.input_dir = c.input_dir then true else fs c.input_dir) = some true
    by_cases h : c.input_dir = c.output_dir <;> simp [h]
  · show some (if c.output_dir = c.output_dir then true
        else if c.output_dir = c.input_dir then true else fs c.output_dir) = some true
    simp

/-- C7: for every scale factor outside 1..8 the façade's `upscale_image` fails
with `ValueError` with zero remote calls performed, and for every supported
scale factor it returns the output path, having delegated one call to the
upscaling feature client. -/
theorem upscale_image_scale_validation (k : Option String) (i o : String) (s : Int) :
    ((s < 1 ∨ 8 < s) →
      MiragicSDK.upscale_image k i o s = (.error PyError.valueError, 0)) ∧
    (1 ≤ s → s ≤ 8 → MiragicSDK.upscale_image k i o s = (.ok o, 1)) := by
  constructor
  · intro h
    have hn : ¬(1 ≤ s ∧ s ≤ 8) := by omega
    simp [MiragicSDK.upscale_image, ImageUpscaler.upscale, hn]
  · intro h1 h2
    simp [MiragicSDK.upscale_image, ImageUpscaler.upscale, h1, h2]

/-- Witness for `upscale_image_scale_validation` at scale factors 9 and 2. -/
theorem upscale_image_scale_validation_witness :
    MiragicSDK.upscale_image Option.none "input.jpg" "output/upscaled_2x.jpg" 9 =
      (.error PyError.valueError, 0) ∧
    MiragicSDK.upscale_image Option.none "input.jpg" "output/upscaled_2x.jpg" 2 =
      (.ok "output/upscaled_2x.jpg", 1) :=
  ⟨(upscale_image_scale_validation Option.none "input.jpg" "output/upscaled_2x.jpg" 9).1
      (Or.inr (by decide)),
   (upscale_image_scale_validation Option.none "input.jpg" "output/upscaled_2x.jpg" 2).2
      (by decide) (by decide)⟩

/-- C9: on every constructed `MiragicSDK` instance, attribute lookup of
`get_api_status` and of `get_usage_stats` raises `AttributeError` (the class
defines neither), and the CLI `status` and `usage` handlers catch the error
and exit with status 1. -/
theorem status_usage_attribute_error (k : Option String) :
    MiragicSDK.getattr k "get_api_status" = .error PyError.attributeError ∧
    MiragicSDK.getattr k "get_usage_stats" = .error PyError.attributeError ∧
    status_command k = 1 ∧ usage_command k = 1 :=
  ⟨rfl, rfl, rfl, rfl⟩

/-- C10: in every environment where `MIRAGIC_API_TIMEOUT` is set to a string
that `int()` rejects, `MiragicConfig` construction raises `ValueError`, so the
module-level `config = MiragicConfig()` makes loading the config module fail. -/
theorem config_module_load_bad_timeout (env : String → Option String) (s : String)
    (hs : env "MIRAGIC_API_TIMEOUT" = some s)
    (hp : pythonInt s = .error PyError.valueError) :
    configModuleLoad env = .error PyError.valueError := by
  unfold configModuleLoad MiragicConfig.init
  rw [hs]
  simp [Option.getD, hp]

/-- Witness for `config_module_load_bad_timeout` at
`MIRAGIC_API_TIMEOUT=thirty`. -/
theorem config_module_load_bad_timeout_witness :
    configModuleLoad envBadTimeout = .error PyError.valueError :=
  config_module_load_bad_timeout envBadTimeout "thirty" (by decide) rfl
